import Mathlib

/-!
Verification development for the pot-app OpenAI-compatible translation plugin
(repository files: src/main.js and a second historical variant of the same
`translate` function, here called the p0 variant).

JavaScript strings are modelled as `List Char`. Stateful pieces of the
`translate` function (accumulated stream text, UI-callback invocations,
dispatched HTTP requests) are modelled by explicit state passing; the
platform primitives (`fetch`, `new URL`) are modelled as oracle parameters so
that theorems can quantify over every possible network behaviour, while the
recorded call lists witness which primitives were actually invoked.
-/

set_option maxRecDepth 4000

/-- Strings of the JavaScript runtime, modelled as lists of characters. -/
abbrev JStr := List Char

/-- Coercion from Lean string literals used to state concrete facts. -/
def js (s : String) : JStr := s.toList

/-- Whitespace recognised by JavaScript `trim` and the regex class for
whitespace, restricted to the ASCII whitespace characters. -/
def isJsWs (c : Char) : Bool :=
  c = ' ' || c = '\t' || c = '\n' || c = '\r' || c = '\x0b' || c = '\x0c'

/-- Behaviour of `String.prototype.trim`: remove leading and trailing
whitespace. -/
def jsTrim (s : JStr) : JStr :=
  ((s.dropWhile isJsWs).reverse.dropWhile isJsWs).reverse

/-- Behaviour of `String.prototype.split` with a single-character separator:
the result list is never empty and keeps empty segments. -/
def splitOnChar (sep : Char) : JStr → List JStr
  | [] => [[]]
  | c :: rest =>
    if c = sep then [] :: splitOnChar sep rest
    else
      match splitOnChar sep rest with
      | h :: t => (c :: h) :: t
      | [] => [[c]]

/-- Index of the first occurrence of `p` as a contiguous substring of `s`,
mirroring the search performed by `String.prototype.replace` and by a regex
engine scanning for a literal. -/
def firstOccurIdx (p : JStr) : JStr → Option Nat
  | [] => if p = [] then some 0 else none
  | c :: rest =>
    if p <+: (c :: rest) then some 0
    else (firstOccurIdx p rest).map (· + 1)

/-- Expansion of the special `$` sequences that JavaScript substitutes inside
the replacement string of `String.prototype.replace`: `$$`, `$&` (the matched
text), a dollar followed by a backquote (the text before the match) and a
dollar followed by an apostrophe (the text after the match); any other dollar
is literal. -/
def expandDollar (matched before after : JStr) : JStr → JStr
  | [] => []
  | c :: rest =>
    if c = '$' then
      match rest with
      | [] => ['$']
      | d :: rest2 =>
        if d = '$' then '$' :: expandDollar matched before after rest2
        else if d = '&' then matched ++ expandDollar matched before after rest2
        else if d = Char.ofNat 96 then before ++ expandDollar matched before after rest2
        else if d = Char.ofNat 39 then after ++ expandDollar matched before after rest2
        else '$' :: d :: expandDollar matched before after rest2
    else c :: expandDollar matched before after rest

/-- Behaviour of `String.prototype.replace(searchString, replacement)`: only
the first occurrence of the search string is replaced, and `$` sequences in
the replacement are expanded. -/
def jsReplaceFirst (s p v : JStr) : JStr :=
  match firstOccurIdx p s with
  | none => s
  | some i =>
    let before := s.take i
    let after := s.drop (i + p.length)
    before ++ expandDollar p before after v ++ after

/-- Global regex replacement by the empty string: scan left to right, and at
each position either remove a match (continuing after it) or keep the
character.  The matcher returns the length of the match it finds at the head
of its argument; a zero-length answer is treated as no match (the matchers
built below always match at least one character). -/
def scanReplaceF (m : JStr → Option Nat) : Nat → JStr → JStr
  | 0, s => s
  | _, [] => []
  | Nat.succ fuel, c :: rest =>
    match m (c :: rest) with
    | some (n + 1) => scanReplaceF m fuel (rest.drop n)
    | _ => c :: scanReplaceF m fuel rest

/-- Wrapper supplying enough fuel for a whole left-to-right scan: every step
consumes at least one character. -/
def scanReplace (m : JStr → Option Nat) (s : JStr) : JStr :=
  scanReplaceF m (s.length + 1) s

example : jsTrim (js "  hi \n") = js "hi" := by decide
example : splitOnChar ',' (js "a,,b") = [js "a", [], js "b"] := by decide
example : firstOccurIdx (js "lo") (js "hello") = some 3 := by decide
example : jsReplaceFirst (js "a$to b $to") (js "$to") (js "X") = js "aX b $to" := by decide

/-- JSON values as produced by `JSON.parse`.  Numbers keep their source
literal: the code under verification never computes with them, it only
re-serialises them or tests them for truthiness. -/
inductive JVal where
  | null
  | bool (b : Bool)
  | num (raw : JStr)
  | str (s : JStr)
  | arr (elems : List JVal)
  | obj (fields : List (JStr × JVal))

instance : Inhabited JVal := ⟨JVal.null⟩

/-- Lookup of a property in a JavaScript object, modelled as an association
list with unique keys. -/
def objLookup (k : JStr) : List (JStr × JVal) → Option JVal
  | [] => none
  | (k2, v) :: rest => if k2 = k then some v else objLookup k rest

/-- Assignment of a property: update the existing slot in place, otherwise
append the new key at the end, as JavaScript property-creation order does. -/
def objInsert : List (JStr × JVal) → JStr → JVal → List (JStr × JVal)
  | [], k, v => [(k, v)]
  | (k2, v2) :: rest, k, v =>
    if k2 = k then (k2, v) :: rest else (k2, v2) :: objInsert rest k v

/-- Property access `v.k`: `none` models the JavaScript value `undefined`. -/
def jGet (v : JVal) (k : JStr) : Option JVal :=
  match v with
  | .obj fields => objLookup k fields
  | _ => none

/-- Index access `v[i]` for the values the code indexes: array elements and
single characters of strings. -/
def jIdx (v : JVal) (i : Nat) : Option JVal :=
  match v with
  | .arr elems => elems.get? i
  | .str s => (s.get? i).map (fun c => JVal.str [c])
  | _ => none

/-- Value of the `length` property for arrays and strings; `none` models
`undefined` on the other values. -/
def jLength (v : JVal) : Option Nat :=
  match v with
  | .arr elems => some elems.length
  | .str s => some s.length
  | _ => none

/-- Test used for JavaScript number truthiness on a kept literal: a literal
denotes zero exactly when every mantissa digit is `0`. -/
def numIsZero (raw : JStr) : Bool :=
  ((raw.takeWhile (fun c => c ≠ 'e' && c ≠ 'E')).filter Char.isDigit).all (· = '0')

/-- JavaScript truthiness of a possibly-undefined value. -/
def jTruthy : Option JVal → Bool
  | none => false
  | some .null => false
  | some (.bool b) => b
  | some (.num raw) => !numIsZero raw
  | some (.str s) => !s.isEmpty
  | some (.arr _) => true
  | some (.obj _) => true

/-- Separator-comma concatenation used by array-to-string coercion. -/
def joinComma : List JStr → JStr
  | [] => []
  | [x] => x
  | x :: rest => x ++ ',' :: joinComma rest

mutual
/-- String coercion applied by `+=` to a non-string right operand, as in
`fullContent += deltaContent`.  Number literals are kept verbatim and objects
render as the standard object placeholder text. -/
def jsToString : JVal → JStr
  | .null => js "null"
  | .bool true => js "true"
  | .bool false => js "false"
  | .num raw => raw
  | .str s => s
  | .obj _ => js "[object Object]"
  | .arr elems => jsToStringList elems

/-- Comma-joined coercion of array elements. -/
def jsToStringList : List JVal → JStr
  | [] => []
  | [v] => jsToString v
  | v :: rest => jsToString v ++ ',' :: jsToStringList rest
end

/-- Escape of a character inside a serialised JSON string (the common cases
used by the error messages the code builds with `JSON.stringify`). -/
def escapeJsonChar (c : Char) : JStr :=
  if c = '"' then ['\\', '"']
  else if c = '\\' then ['\\', '\\']
  else if c = '\n' then ['\\', 'n']
  else if c = '\r' then ['\\', 'r']
  else if c = '\t' then ['\\', 't']
  else [c]

mutual
/-- Serialisation `JSON.stringify` restricted to the value shapes of this
development. -/
def jsonStringify : JVal → JStr
  | .null => js "null"
  | .bool true => js "true"
  | .bool false => js "false"
  | .num raw => raw
  | .str s => '"' :: (s.flatMap escapeJsonChar) ++ ['"']
  | .arr elems => '[' :: jsonStringifyList elems ++ [']']
  | .obj fields => Char.ofNat 123 :: jsonStringifyFields fields ++ [Char.ofNat 125]

/-- Serialisation of array elements. -/
def jsonStringifyList : List JVal → JStr
  | [] => []
  | [v] => jsonStringify v
  | v :: rest => jsonStringify v ++ ',' :: jsonStringifyList rest

/-- Serialisation of object fields. -/
def jsonStringifyFields : List (JStr × JVal) → JStr
  | [] => []
  | [(k, v)] => '"' :: (k.flatMap escapeJsonChar) ++ '"' :: ':' :: jsonStringify v
  | (k, v) :: rest =>
    '"' :: (k.flatMap escapeJsonChar) ++ '"' :: ':' :: jsonStringify v
      ++ ',' :: jsonStringifyFields rest
end

/-- Whitespace the JSON grammar allows between tokens. -/
def isJsonWs (c : Char) : Bool :=
  c = ' ' || c = '\t' || c = '\n' || c = '\r'

/-- Numeric value of one hexadecimal digit. -/
def hexVal (c : Char) : Option Nat :=
  if c.isDigit then some (c.toNat - 48)
  else if 'a' ≤ c && c ≤ 'f' then some (c.toNat - 87)
  else if 'A' ≤ c && c ≤ 'F' then some (c.toNat - 55)
  else none

/-- Body of a JSON string literal after the opening quote: returns the
decoded characters and the input remaining after the closing quote.  Control
characters are rejected as the JSON grammar demands; a `u` escape decodes
four hexadecimal digits to a single character (surrogate pairs are not
recombined). -/
def parseStringBodyF : Nat → JStr → Option (JStr × JStr)
  | 0, _ => none
  | _, [] => none
  | Nat.succ _, '"' :: rest => some ([], rest)
  | Nat.succ fuel, '\\' :: e :: rest =>
    if e = 'u' then
      match rest with
      | h1 :: h2 :: h3 :: h4 :: rest2 =>
        match hexVal h1, hexVal h2, hexVal h3, hexVal h4 with
        | some a, some b, some c, some d =>
          (parseStringBodyF fuel rest2).map
            (fun r => (Char.ofNat (((a * 16 + b) * 16 + c) * 16 + d) :: r.1, r.2))
        | _, _, _, _ => none
      | _ => none
    else
      match
        (if e = '"' then some '"'
         else if e = '\\' then some '\\'
         else if e = '/' then some '/'
         else if e = 'b' then some '\x08'
         else if e = 'f' then some '\x0c'
         else if e = 'n' then some '\n'
         else if e = 'r' then some '\r'
         else if e = 't' then some '\t'
         else none) with
      | some c => (parseStringBodyF fuel rest).map (fun r => (c :: r.1, r.2))
      | none => none
  | Nat.succ fuel, c :: rest =>
    if c.toNat < 32 then none
    else (parseStringBodyF fuel rest).map (fun r => (c :: r.1, r.2))

/-- Wrapper supplying enough fuel: every step consumes at least one input
character. -/
def parseStringBody (s : JStr) : Option (JStr × JStr) :=
  parseStringBodyF (s.length + 1) s

/-- Exponent part of a JSON number literal; when no exponent is present the
accumulated literal is returned unchanged. -/
def parseNumExp (acc : JStr) (cs : JStr) : Option (JStr × JStr) :=
  match cs with
  | e :: r =>
    if e = 'e' || e = 'E' then
      let (sgn, r1) :=
        match r with
        | s :: r2 => if s = '+' || s = '-' then (([s] : JStr), r2) else (([] : JStr), r)
        | [] => (([] : JStr), r)
      let ds := r1.takeWhile Char.isDigit
      if ds.isEmpty then none
      else some (acc ++ e :: sgn ++ ds, r1.dropWhile Char.isDigit)
    else some (acc, cs)
  | [] => some (acc, cs)

/-- Fraction part of a JSON number literal followed by the exponent part. -/
def parseNumFrac (acc : JStr) (cs : JStr) : Option (JStr × JStr) :=
  match cs with
  | '.' :: r =>
    let ds := r.takeWhile Char.isDigit
    if ds.isEmpty then none
    else parseNumExp (acc ++ '.' :: ds) (r.dropWhile Char.isDigit)
  | _ => parseNumExp acc cs

/-- Complete JSON number literal: optional sign, integer part without leading
zeros, optional fraction and exponent.  The literal is kept verbatim. -/
def parseNumLit (cs : JStr) : Option (JStr × JStr) :=
  let (sign, cs1) :=
    match cs with
    | '-' :: r => ((['-'] : JStr), r)
    | _ => (([] : JStr), cs)
  match cs1 with
  | '0' :: r => parseNumFrac (sign ++ ['0']) r
  | c :: r =>
    if c.isDigit then
      parseNumFrac (sign ++ c :: r.takeWhile Char.isDigit) (r.dropWhile Char.isDigit)
    else none
  | [] => none

mutual
/-- Recursive-descent parser for one JSON value, mirroring `JSON.parse`.  The
fuel bounds the recursion depth; the top-level wrapper supplies more fuel
than the input length, which the grammar cannot exhaust because every
recursive call consumes at least one input character first. -/
def parseJVal : Nat → JStr → Option (JVal × JStr)
  | 0, _ => none
  | Nat.succ fuel, cs =>
    match cs.dropWhile isJsonWs with
    | '{' :: rest =>
      match rest.dropWhile isJsonWs with
      | '}' :: rest2 => some (JVal.obj [], rest2)
      | rest2 => parseJMembers fuel rest2 []
    | '[' :: rest =>
      match rest.dropWhile isJsonWs with
      | ']' :: rest2 => some (JVal.arr [], rest2)
      | rest2 => parseJItems fuel rest2 []
    | '"' :: rest => (parseStringBody rest).map (fun r => (JVal.str r.1, r.2))
    | 't' :: 'r' :: 'u' :: 'e' :: rest => some (JVal.bool true, rest)
    | 'f' :: 'a' :: 'l' :: 's' :: 'e' :: rest => some (JVal.bool false, rest)
    | 'n' :: 'u' :: 'l' :: 'l' :: rest => some (JVal.null, rest)
    | other => (parseNumLit other).map (fun r => (JVal.num r.1, r.2))

/-- Members of a JSON object after the opening brace (first member expected). -/
def parseJMembers : Nat → JStr → List (JStr × JVal) → Option (JVal × JStr)
  | 0, _, _ => none
  | Nat.succ fuel, cs, acc =>
    match cs.dropWhile isJsonWs with
    | '"' :: rest =>
      match parseStringBody rest with
      | none => none
      | some (key, r1) =>
        match r1.dropWhile isJsonWs with
        | ':' :: r2 =>
          match parseJVal fuel r2 with
          | none => none
          | some (v, r3) =>
            match r3.dropWhile isJsonWs with
            | ',' :: r4 => parseJMembers fuel r4 (objInsert acc key v)
            | '}' :: r4 => some (JVal.obj (objInsert acc key v), r4)
            | _ => none
        | _ => none
    | _ => none

/-- Items of a JSON array after the opening bracket (first item expected). -/
def parseJItems : Nat → JStr → List JVal → Option (JVal × JStr)
  | 0, _, _ => none
  | Nat.succ fuel, cs, acc =>
    match parseJVal fuel cs with
    | none => none
    | some (v, r1) =>
      match r1.dropWhile isJsonWs with
      | ',' :: r2 => parseJItems fuel r2 (acc ++ [v])
      | ']' :: r2 => some (JVal.arr (acc ++ [v]), r2)
      | _ => none
end

/-- Behaviour of `JSON.parse`: parse one value and require only whitespace to
remain; `none` models the thrown `SyntaxError`. -/
def jsonParse (s : JStr) : Option JVal :=
  match parseJVal (s.length + 2) s with
  | some (v, rest) => if (rest.dropWhile isJsonWs).isEmpty then some v else none
  | none => none

example : jsonParse (js "\x7b\"a\": [1, \"x\"]\x7d")
    = some (JVal.obj [(js "a", JVal.arr [JVal.num (js "1"), JVal.str (js "x")])]) := by rfl
example : jsonParse (js "[DONE]") = none := by rfl
example : jsonParse (js "\x7b\"temperature\": 0.1\x7d")
    = some (JVal.obj [(js "temperature", JVal.num (js "0.1"))]) := by rfl
example : jsonParse (js "not json") = none := by rfl

/-- Characters escaped by the tag-escaping step
`tag.replace(/[-\/\\^$*+?.()|[\]\x7b\x7d]/g, "\\$&")` of both variants. -/
def isRegexMeta (c : Char) : Bool :=
  c = '-' || c = '/' || c = '\\' || c = '^' || c = '$' || c = '*' || c = '+' ||
  c = '?' || c = '.' || c = '(' || c = ')' || c = '|' || c = '[' || c = ']' ||
  c = Char.ofNat 123 || c = Char.ofNat 125

/-- Escaping step itself: a backslash is inserted before every metacharacter. -/
def escapeRegexMeta : JStr → JStr
  | [] => []
  | c :: rest =>
    if isRegexMeta c then '\\' :: c :: escapeRegexMeta rest
    else c :: escapeRegexMeta rest

/-- Interpretation of an escaped regex fragment as the literal text it
matches: a backslash makes the following character literal.  This is the
regex-engine reading of the fragments the code builds, and is exact whenever
the backslashes in the fragment all precede non-alphanumeric characters,
which holds for every fragment produced by `escapeRegexMeta`. -/
def interpLit : JStr → JStr
  | [] => []
  | '\\' :: c :: rest => c :: interpLit rest
  | c :: rest => c :: interpLit rest

/-- Matcher of the regex built by `applyRemoveTag` in src/main.js:
`escapedTag(?:\s*\/>|>(.*?)<\/escapedTag.substring(1)>)`.  Given the head of
the remaining input it returns the length of the match found there, trying
the self-closing alternative first and then the paired alternative with a
lazy body, exactly as the ordered alternation and the lazy quantifier do.
The reading is exact when the first character of the tag is not a regex
metacharacter, which holds for the default tags. -/
def matchMainTag (tag : JStr) (s : JStr) : Option Nat :=
  let openLit := interpLit (escapeRegexMeta tag)
  let closeLit := interpLit ('<' :: '\\' :: '/' :: (escapeRegexMeta tag).drop 1 ++ ['>'])
  if openLit.isPrefixOf s then
    let rest := s.drop openLit.length
    let wsLen := (rest.takeWhile isJsWs).length
    if (js "/>").isPrefixOf (rest.drop wsLen) then some (openLit.length + wsLen + 2)
    else
      match rest with
      | '>' :: rest2 =>
        (firstOccurIdx closeLit rest2).map (fun n => openLit.length + 1 + n + closeLit.length)
      | _ => none
  else none

/-- Matcher of the regex built by `applyTagRemoval` in the p0 variant:
`openingTag(.*?)closingTag|selfClosingTag` where
`closingTag = openingTag.replace("<", "</")` and
`selfClosingTag = openingTag.replace(">", "/>")`. -/
def matchP0Tag (tag : JStr) (s : JStr) : Option Nat :=
  let openLit := interpLit (escapeRegexMeta tag)
  let closeLit := interpLit (jsReplaceFirst (escapeRegexMeta tag) (js "<") (js "</"))
  let selfLit := interpLit (jsReplaceFirst (escapeRegexMeta tag) (js ">") (js "/>"))
  let altSelf := if selfLit.isPrefixOf s then some selfLit.length else none
  if openLit.isPrefixOf s then
    match firstOccurIdx closeLit (s.drop openLit.length) with
    | some n => some (openLit.length + n + closeLit.length)
    | none => altSelf
  else altSelf

/-- Comma-separated tag list preparation shared by both variants:
`removeTagString.split(",").map(trim).filter(length > 0)`. -/
def tagList (removeTagString : JStr) : List JStr :=
  ((splitOnChar ',' removeTagString).map jsTrim).filter (fun t => !t.isEmpty)

/-- Tag stripper of src/main.js lines 74-86 (`applyRemoveTag`): empty input
is returned as is, otherwise each configured tag regex is applied globally
and the result is trimmed. -/
def applyRemoveTag (removeTagString inputText : JStr) : JStr :=
  if inputText.isEmpty then inputText
  else
    let processed :=
      if removeTagString.isEmpty then inputText
      else (tagList removeTagString).foldl
        (fun txt tag => scanReplace (matchMainTag tag) txt) inputText
    jsTrim processed

/-- Tag stripper of the p0 variant lines 69-86 (`applyTagRemoval`): when the
tag list or the input is empty the input is returned as is, otherwise each
tag regex is applied globally and the result is trimmed. -/
def applyTagRemoval (removeTagString inputText : JStr) : JStr :=
  if removeTagString.isEmpty || inputText.isEmpty then inputText
  else
    jsTrim ((tagList removeTagString).foldl
      (fun txt tag => scanReplace (matchP0Tag tag) txt) inputText)

example : applyTagRemoval (js "<think>,<help>") (js "<think>ignore</think>Hello<help/>")
    = js "Hello" := by rfl
example : applyRemoveTag (js "<think>,<help>") (js "<think>ignore</think>Hello<help/>")
    = js "<think>ignore</think>Hello<help/>" := by rfl
example : applyRemoveTag (js "<think>,<help>") (js "<think>>x</think>>Hello")
    = js "Hello" := by rfl

/-- Resolution `languageMap[code] || code` of a display name: the mapped name
when the map has a truthy entry for the code, otherwise the raw code. -/
def langName (languageMap : List (JStr × JStr)) (code : JStr) : JStr :=
  match languageMap.lookup code with
  | some v => if v.isEmpty then code else v
  | none => code

/-- System prompt of src/main.js lines 40-43: sequential first-occurrence
replacement of the placeholders in the order written in the source. -/
def renderSystemMain (tpl toName fromName detectName : JStr) : JStr :=
  jsReplaceFirst (jsReplaceFirst (jsReplaceFirst tpl (js "$to") toName)
    (js "$from") fromName) (js "$detect") detectName

/-- User prompt of src/main.js lines 44-48. -/
def renderUserMain (tpl text toName fromName detectName : JStr) : JStr :=
  jsReplaceFirst (jsReplaceFirst (jsReplaceFirst (jsReplaceFirst tpl
    (js "$text") text) (js "$to") toName) (js "$from") fromName)
    (js "$detect") detectName

/-- System prompt of the p0 variant lines 54-57: it substitutes `$text` in
place of `$detect`. -/
def renderSystemP0 (tpl toName fromName text : JStr) : JStr :=
  jsReplaceFirst (jsReplaceFirst (jsReplaceFirst tpl (js "$to") toName)
    (js "$from") fromName) (js "$text") text

/-- User prompt of the p0 variant lines 58-61 (no `$detect` support). -/
def renderUserP0 (tpl text toName fromName : JStr) : JStr :=
  jsReplaceFirst (jsReplaceFirst (jsReplaceFirst tpl (js "$text") text)
    (js "$to") toName) (js "$from") fromName

/-- Configuration bundle read by both variants; absent entries are `none`
and `language` is the (possibly empty) code-to-display-name map. -/
structure PluginConfig where
  apiKey : Option JStr := none
  requestPath : Option JStr := none
  model : Option JStr := none
  system_prompt : Option JStr := none
  user_prompt : Option JStr := none
  parameters : Option JStr := none
  removeTag : Option JStr := none
  use_stream : Option JStr := none
  language : List (JStr × JStr) := []

/-- Truthiness of an optional configuration string: present and non-empty. -/
def optTruthy : Option JStr → Bool
  | none => false
  | some s => !s.isEmpty

/-- Defaulting idiom `config.x || fallback`. -/
def jsOr (v : Option JStr) (fallback : JStr) : JStr :=
  match v with
  | some s => if s.isEmpty then fallback else s
  | none => fallback

/-- Spread `...parameters` of an arbitrary parsed JSON value into an object
literal: objects contribute their fields, arrays and strings contribute
index-keyed entries, primitives contribute nothing. -/
def spreadFields (v : JVal) : List (JStr × JVal) :=
  match v with
  | .obj fields => fields
  | .arr elems => (elems.enum.map (fun p => (Nat.toDigits 10 p.1, p.2)))
  | .str s => (s.enum.map (fun p => (Nat.toDigits 10 p.1, JVal.str [p.2])))
  | _ => []

/-- Parameter resolution of src/main.js lines 55-60: parse the configured
JSON, falling back to the hard-coded default object on a parse failure. -/
def mainResolveParams (parametersString : JStr) : JVal :=
  match jsonParse parametersString with
  | some v => v
  | none => JVal.obj [(js "temperature", JVal.num (js "0.6")),
      (js "top_p", JVal.num (js "0.99")),
      (js "frequency_penalty", JVal.num (js "0")),
      (js "presence_penalty", JVal.num (js "0"))]

/-- Parameter resolution of the p0 variant lines 43-48, with its own default. -/
def p0ResolveParams (parametersString : JStr) : JVal :=
  match jsonParse parametersString with
  | some v => v
  | none => JVal.obj [(js "temperature", JVal.num (js "0.1"))]

/-- Message list `[{role: system}, {role: user}]` built by both variants. -/
def chatMessages (systemPrompt userPrompt : JStr) : JVal :=
  JVal.arr [
    JVal.obj [(js "role", JVal.str (js "system")), (js "content", JVal.str systemPrompt)],
    JVal.obj [(js "role", JVal.str (js "user")), (js "content", JVal.str userPrompt)]]

/-- Request body of src/main.js lines 62-67: the object literal
`\x7bmodel, messages, ...parameters, stream\x7d`, evaluated in source order so
that a parameter key can overwrite `model` and `messages` but `stream` is
assigned last. -/
def mainRequestBody (model : JStr) (messages : JVal) (parameters : JVal)
    (stream : Bool) : List (JStr × JVal) :=
  let base := [(js "model", JVal.str model), (js "messages", messages)]
  let merged := (spreadFields parameters).foldl (fun o p => objInsert o p.1 p.2) base
  objInsert merged (js "stream") (JVal.bool stream)

/-- Request body of the p0 variant lines 96-101: the object literal
`\x7bmodel, messages, stream, ...parameters\x7d`, whose spread comes last and can
overwrite all three fixed keys. -/
def p0RequestBody (model : JStr) (messages : JVal) (parameters : JVal)
    (stream : Bool) : List (JStr × JVal) :=
  let base := [(js "model", JVal.str model), (js "messages", messages),
    (js "stream", JVal.bool stream)]
  (spreadFields parameters).foldl (fun o p => objInsert o p.1 p.2) base

/-- Scheme-defaulting step shared by both variants (src/main.js lines 24-26,
p0 lines 31-33): prepend `https://` when no scheme is present. -/
def ensureScheme (requestPath : JStr) : JStr :=
  if !(js "http://").isPrefixOf requestPath && !(js "https://").isPrefixOf requestPath
  then js "https://" ++ requestPath
  else requestPath

/-- Pathname-suffixing step of src/main.js lines 28-33, acting on the
`pathname` component of the parsed URL. -/
def mainNormalizePath (pathname : JStr) : JStr :=
  if (js "/chat/completions").isSuffixOf pathname then pathname
  else
    (if !(js "/").isSuffixOf pathname then pathname ++ js "/" else pathname)
      ++ js "chat/completions"

/-- Whole-string endpoint normalisation of the p0 variant lines 31-40:
scheme defaulting followed by `/chat/completions` suffixing. -/
def p0NormalizePath (requestPath : JStr) : JStr :=
  let withScheme := ensureScheme requestPath
  if (js "/chat/completions").isSuffixOf withScheme then withScheme
  else if (js "/").isSuffixOf withScheme then withScheme ++ js "chat/completions"
  else withScheme ++ js "/chat/completions"

example : p0NormalizePath (js "api.example.com/v1")
    = js "https://api.example.com/v1/chat/completions" := by decide
example : mainNormalizePath (js "/v1") = js "/v1/chat/completions" := by decide
example : renderUserMain (js "from $from to $to: $text") (js "hi $to x")
    (js "Chinese") (js "English") (js "auto")
    = js "from English to Chinese: hi $to x" := by decide

/-- One iteration of the per-line loop of the src/main.js stream decoder
(lines 123-140).  The state is the accumulated content together with the list
of arguments passed to `setResult` so far.  A line is actionable only with
the `data: ` prefix; a `[DONE]` payload falls into an empty branch and
changes nothing; an unparseable payload is logged and skipped; a well-formed
delta is appended and the tag-stripped accumulation plus an ellipsis is
pushed to the callback. -/
def mainProcessLine (removeTag : JStr) (st : JStr × List JStr) (line : JStr) :
    JStr × List JStr :=
  if (js "data: ").isPrefixOf line then
    let dataContent := jsTrim (line.drop 6)
    if dataContent = js "[DONE]" then st
    else
      match jsonParse dataContent with
      | none => st
      | some parsed =>
        let choices := jGet parsed (js "choices")
        let c0 := choices.bind (fun v => jIdx v 0)
        let delta := c0.bind (fun v => jGet v (js "delta"))
        let content := delta.bind (fun v => jGet v (js "content"))
        if jTruthy choices && jTruthy c0 && jTruthy delta && jTruthy content then
          let appended :=
            match content with
            | some (.str s) => s
            | some v => jsToString v
            | none => []
          let acc2 := st.1 ++ appended
          (acc2, st.2 ++ [applyRemoveTag removeTag acc2 ++ js "..."])
        else st
  else st

/-- Chunk loop of the src/main.js stream decoder (lines 112-141): each chunk
is appended to the carry-over buffer, the buffer is split on newlines, the
last fragment becomes the new buffer and the complete lines are processed.
On exhaustion the leftover buffer is discarded. -/
def mainStreamLoop (removeTag : JStr) : List JStr → JStr → (JStr × List JStr) →
    JStr × List JStr
  | [], _, st => st
  | chunk :: rest, buf, st =>
    let parts := splitOnChar '\n' (buf ++ chunk)
    let st2 := parts.dropLast.foldl (mainProcessLine removeTag) st
    mainStreamLoop removeTag rest (parts.getLastD []) st2

/-- Whole src/main.js streaming decode (lines 107-145): run the loop from an
empty state, then push the final tag-stripped text (without ellipsis) to the
callback and return it. -/
def mainStreamRun (removeTag : JStr) (chunks : List JStr) : JStr × List JStr :=
  let st := mainStreamLoop removeTag chunks [] ([], [])
  let finalResult := applyRemoveTag removeTag st.1
  (finalResult, st.2 ++ [finalResult])

/-- Splitting of the whole p0 response text by `/(\r\n|\n|\r)/`: because the
regex captures the separator, the separators appear in the result list.  The
auxiliary accumulates the current segment in reverse. -/
def splitSseAux : JStr → JStr → List JStr
  | cur, [] => [cur.reverse]
  | cur, '\r' :: '\n' :: rest => cur.reverse :: (js "\r\n") :: splitSseAux [] rest
  | cur, '\n' :: rest => cur.reverse :: [('\n' : Char)] :: splitSseAux [] rest
  | cur, '\r' :: rest => cur.reverse :: [('\r' : Char)] :: splitSseAux [] rest
  | cur, c :: rest => splitSseAux (c :: cur) rest

/-- Newline split entry point of the p0 stream decoder (line 142). -/
def splitSse (s : JStr) : List JStr := splitSseAux [] s

/-- One line of the p0 stream decoder (lines 144-178): empty (after trim)
lines are skipped, the prefix here is `data:` without a space, a `[DONE]`
payload breaks out of the whole loop (`none`), a parse failure is logged and
skipped, and a truthy delta is appended with the tag-stripped accumulation
pushed to the callback when one was supplied. -/
def p0LineStep (removeTag : JStr) (hasSetResult : Bool) (st : JStr × List JStr)
    (line : JStr) : Option (JStr × List JStr) :=
  let t := jsTrim line
  if t.isEmpty then some st
  else if (js "data:").isPrefixOf t then
    let jsonData := jsTrim (t.drop 5)
    if jsonData = js "[DONE]" then none
    else
      match jsonParse jsonData with
      | none => some st
      | some parsed =>
        let delta := (((jGet parsed (js "choices")).bind (fun v => jIdx v 0)).bind
          (fun v => jGet v (js "delta"))).bind (fun v => jGet v (js "content"))
        if jTruthy delta then
          let appended :=
            match delta with
            | some (.str s) => s
            | some v => jsToString v
            | none => []
          let acc2 := st.1 ++ appended
          some (acc2, if hasSetResult then st.2 ++ [applyTagRemoval removeTag acc2] else st.2)
        else some st
  else some st

/-- Loop of the p0 line processing: a `none` step is the `break` on the
`[DONE]` sentinel, which returns the state reached so far. -/
def p0ProcessLines (removeTag : JStr) (hasSetResult : Bool) :
    List JStr → (JStr × List JStr) → JStr × List JStr
  | [], st => st
  | line :: rest, st =>
    match p0LineStep removeTag hasSetResult st line with
    | none => st
    | some st2 => p0ProcessLines removeTag hasSetResult rest st2

/-- Whole p0 streaming decode (lines 137-195): process the split response
text, then either return the empty string when nothing at all was produced,
or push the final tag-stripped text once more and return it. -/
def p0StreamRun (removeTag : JStr) (hasSetResult : Bool) (rawResponseText : JStr) :
    JStr × List JStr :=
  let r := p0ProcessLines removeTag hasSetResult (splitSse rawResponseText) ([], [])
  let finalResult := applyTagRemoval removeTag r.1
  if finalResult.isEmpty && r.1.isEmpty then ([], r.2)
  else (finalResult, if hasSetResult then r.2 ++ [finalResult] else r.2)

/-- Buffered-mode response validation and extraction of src/main.js lines
166-173: the truthiness chain over `choices`, `choices.length`,
`choices[0].message` and its `content`, then trim and tag-strip.  The
structural error carries the serialised payload. -/
def extractMain (removeTag : JStr) (resultData : JVal) : Except JStr JStr :=
  let choices := jGet resultData (js "choices")
  let lenOk :=
    match choices.map jLength with
    | some (some n) => decide (0 < n)
    | _ => false
  let msg := (choices.bind (fun v => jIdx v 0)).bind (fun v => jGet v (js "message"))
  let content := msg.bind (fun v => jGet v (js "content"))
  if jTruthy (some resultData) && jTruthy choices && lenOk && jTruthy msg
      && jTruthy content then
    match content with
    | some (.str s) => .ok (applyRemoveTag removeTag (jsTrim s))
    | _ => .error (js "TypeError: content.trim is not a function")
  else
    .error (js "API Error: Invalid response structure received.\n" ++ jsonStringify resultData)

/-- Non-streaming response validation and extraction of the p0 variant lines
124-133, with the same truthiness chain and its own error text. -/
def p0Extract (removeTag : JStr) (resultData : JVal) : Except JStr JStr :=
  let choices := jGet resultData (js "choices")
  let lenOk :=
    match choices.map jLength with
    | some (some n) => decide (0 < n)
    | _ => false
  let msg := (choices.bind (fun v => jIdx v 0)).bind (fun v => jGet v (js "message"))
  let content := msg.bind (fun v => jGet v (js "content"))
  if jTruthy (some resultData) && jTruthy choices && lenOk && jTruthy msg
      && jTruthy content then
    match content with
    | some (.str s) => .ok (applyTagRemoval removeTag (jsTrim s))
    | _ => .error (js "TypeError: content.trim is not a function")
  else
    .error (js "API Error: Invalid non-streaming response structure.\n"
      ++ jsonStringify resultData)

/-- URL object of the platform, restricted to the two components the code
touches; the `href` is modelled as their concatenation (query and fragment
are not exercised by the code under verification). -/
structure URLParts where
  base : JStr
  pathname : JStr

/-- Serialisation of the URL back to a string. -/
def urlHref (u : URLParts) : JStr := u.base ++ u.pathname

/-- Response of `window.fetch` in stream mode: HTTP status information, the
text read for error reporting and the optional body presented as the list of
decoded chunks (a missing body models `response.body === null`). -/
structure StreamResp where
  ok : Bool
  status : JStr
  errText : JStr
  body : Option (List JStr)

/-- Response of `tauriFetch` in buffered mode: the data field is the parsed
JSON payload. -/
structure BufResp where
  ok : Bool
  status : JStr
  data : JVal

/-- Platform oracle for src/main.js: URL parsing (`none` models the
constructor throwing on an unusable URL) and the two fetch primitives, each
mapping the request target and body to either a thrown error or a response. -/
structure MainOracle where
  parseURL : JStr → Option URLParts
  fetchStream : JStr → List (JStr × JVal) → Except JStr StreamResp
  fetchBuffered : JStr → List (JStr × JVal) → Except JStr BufResp

/-- Observable outcome of a translate call: the returned or thrown value,
the list of fetch targets actually dispatched, and the list of arguments the
incremental callback received. -/
structure TransOut where
  res : Except JStr JStr
  fetches : List JStr
  calls : List JStr

/-- Details string of the streaming-mode HTTP error of src/main.js lines
98-100: the body text is re-serialised through a JSON parse when possible
(the two-space indentation of the source serialisation is not modelled). -/
def streamErrDetails (t : JStr) : JStr :=
  match jsonParse t with
  | some v => jsonStringify v
  | none => jsonStringify (JVal.str t)

/-- Model of the whole `translate` of src/main.js.  Configuration reading,
validation, URL normalisation, prompt rendering, body construction and both
dispatch branches follow the source line by line; the oracle supplies the
platform behaviour and the output records every fetch dispatched and every
callback invocation. -/
def translateMain (text fromL toL detect : JStr) (cfg : PluginConfig)
    (hasSetResult : Bool) (oracle : MainOracle) : TransOut :=
  let model := jsOr cfg.model (js "gpt-4o-mini")
  let systemPromptTemplate := jsOr cfg.system_prompt (js "You are a helpful translation assistant.")
  let userPromptTemplate := jsOr cfg.user_prompt (js "Translate the following text from $from to $to: $text")
  let parametersString := jsOr cfg.parameters (js "\x7b\"temperature\": 0.1\x7d")
  let removeTagString := jsOr cfg.removeTag (js "<think>,<help>")
  let useStream := cfg.use_stream = some (js "true")
  let languageMap := cfg.language
  if !optTruthy cfg.apiKey then
    ⟨.error (js "API Key is missing. Please configure it in the plugin settings."), [], []⟩
  else if !optTruthy cfg.requestPath then
    ⟨.error (js "Request Path (API Endpoint URL) is missing. Please configure it."), [], []⟩
  else
    let requestPath := ensureScheme ((cfg.requestPath).getD [])
    match oracle.parseURL requestPath with
    | none => ⟨.error (js "TypeError: URL constructor: invalid URL"), [], []⟩
    | some parsed =>
      let apiUrl := URLParts.mk parsed.base (mainNormalizePath parsed.pathname)
      let targetLang := langName languageMap toL
      let sourceLang := langName languageMap fromL
      let detectedLang := langName languageMap detect
      let systemPrompt := renderSystemMain systemPromptTemplate targetLang sourceLang detectedLang
      let userPrompt := renderUserMain userPromptTemplate text targetLang sourceLang detectedLang
      let messages := chatMessages systemPrompt userPrompt
      let parameters := mainResolveParams parametersString
      let requestBody := mainRequestBody model messages parameters (useStream && hasSetResult)
      let href := urlHref apiUrl
      if useStream && hasSetResult then
        match oracle.fetchStream href requestBody with
        | .error e => ⟨.error (js "Streaming Error: " ++ e), [href], []⟩
        | .ok resp =>
          if !resp.ok then
            ⟨.error (js "Streaming Error: API Request Failed\nStatus: " ++ resp.status
              ++ js "\nDetails: " ++ streamErrDetails resp.errText), [href], []⟩
          else
            match resp.body with
            | none =>
              ⟨.error (js "Streaming Error: Response body is null, cannot process stream."),
                [href], []⟩
            | some chunks =>
              let r := mainStreamRun removeTagString chunks
              ⟨.ok r.1, [href], r.2⟩
      else
        match oracle.fetchBuffered href requestBody with
        | .error e => ⟨.error (js "Network or Fetch Error: " ++ e), [href], []⟩
        | .ok res =>
          if res.ok then
            match extractMain removeTagString res.data with
            | .ok t => ⟨.ok t, [href], []⟩
            | .error e => ⟨.error e, [href], []⟩
          else
            ⟨.error (js "API Request Failed\nStatus: " ++ res.status ++ js "\nDetails: "
              ++ jsonStringify res.data), [href], []⟩

/-- Response of the p0 `http.fetch` primitive: the data field is a JSON
value in buffered mode and a string value in stream mode. -/
structure P0Resp where
  ok : Bool
  status : JStr
  data : JVal

/-- Details string of the p0 HTTP error (lines 109-117): a JSON re-parse of
the (string-coerced, defaulted) body picks the `error` field when truthy,
and the parse failure falls back to the raw body or a fixed message. -/
def p0ErrDetails (data : JVal) : JStr :=
  let parseArg :=
    if jTruthy (some data) then
      match data with
      | .str s => s
      | v => jsToString v
    else js "\x7b\x7d"
  match jsonParse parseArg with
  | some errorData =>
    match jGet errorData (js "error") with
    | some e => if jTruthy (some e) then jsonStringify e else jsonStringify data
    | none => jsonStringify data
  | none =>
    if jTruthy (some data) then
      match data with
      | .str s => s
      | v => jsToString v
    else js "No additional error details available."

/-- Model of the whole `translate` of the p0 variant.  The flag `httpOk`
states that the host supplied the required HTTP utilities (line 6); the
oracle is the single fetch primitive used by both modes. -/
def p0Translate (text fromL toL : JStr) (cfg : PluginConfig)
    (hasSetResult httpOk : Bool)
    (oracle : JStr → List (JStr × JVal) → Except JStr P0Resp) : TransOut :=
  if !httpOk then
    ⟨.error (js "Required HTTP utilities are not available in this Pot version."), [], []⟩
  else
    let model := jsOr cfg.model (js "gpt-3.5-turbo")
    let systemPromptTemplate := jsOr cfg.system_prompt (js "You are a helpful translation assistant.")
    let userPromptTemplate := jsOr cfg.user_prompt (js "Translate the following text from $from to $to: $text")
    let parametersString := jsOr cfg.parameters (js "\x7b\"temperature\": 0.1\x7d")
    let removeTagString := jsOr cfg.removeTag (js "<think>,<help>")
    let useStream := cfg.use_stream = some (js "true")
    let languageMap := cfg.language
    if !optTruthy cfg.apiKey then
      ⟨.error (js "API Key is missing. Please configure it in the plugin settings."), [], []⟩
    else if !optTruthy cfg.requestPath then
      ⟨.error (js "Request Path (API Endpoint URL) is missing. Please configure it."), [], []⟩
    else
      let requestPath := p0NormalizePath ((cfg.requestPath).getD [])
      let parameters := p0ResolveParams parametersString
      let targetLang := langName languageMap toL
      let sourceLang := langName languageMap fromL
      let systemPrompt := renderSystemP0 systemPromptTemplate targetLang sourceLang text
      let userPrompt := renderUserP0 userPromptTemplate text targetLang sourceLang
      let messages := chatMessages systemPrompt userPrompt
      let requestBody := p0RequestBody model messages parameters useStream
      match oracle requestPath requestBody with
      | .error e => ⟨.error e, [requestPath], []⟩
      | .ok resp =>
        if !resp.ok then
          ⟨.error (js "API Request Failed\nStatus: " ++ resp.status ++ js "\nDetails: "
            ++ p0ErrDetails resp.data), [requestPath], []⟩
        else if !useStream then
          match p0Extract removeTagString resp.data with
          | .ok t => ⟨.ok t, [requestPath], if hasSetResult then [t] else []⟩
          | .error e => ⟨.error e, [requestPath], []⟩
        else
          match resp.data with
          | .str rawText =>
            let r := p0StreamRun removeTagString hasSetResult rawText
            ⟨.ok r.1, [requestPath], r.2⟩
          | _ =>
            ⟨.error (js "TypeError: rawResponseText.split is not a function"),
              [requestPath], []⟩

/-- Modelled from the claim wording (specification side, for comparison with
the code): replacement of every occurrence of a placeholder, scanning left to
right.  The fuel bounds the scan length. -/
def specReplaceEveryF (p v : JStr) : Nat → JStr → JStr
  | 0, s => s
  | _, [] => []
  | Nat.succ fuel, c :: rest =>
    if !p.isEmpty && p.isPrefixOf (c :: rest) then
      v ++ specReplaceEveryF p v fuel ((c :: rest).drop p.length)
    else c :: specReplaceEveryF p v fuel rest

/-- Wrapper supplying enough fuel for the whole scan. -/
def specReplaceEvery (s p v : JStr) : JStr :=
  specReplaceEveryF p v (s.length + 1) s

/-- Modelled from the claim wording (specification side): a user-prompt
rendering that substitutes every occurrence of each placeholder, in the
substitution order of src/main.js. -/
def specRenderUserEvery (tpl text toName fromName detectName : JStr) : JStr :=
  specReplaceEvery (specReplaceEvery (specReplaceEvery (specReplaceEvery tpl
    (js "$text") text) (js "$to") toName) (js "$from") fromName)
    (js "$detect") detectName

/-! Helper lemmas about the string and object primitives. -/

theorem expandDollar_id_of_no_dollar (m b a : JStr) (v : JStr) (hv : '$' ∉ v) :
    expandDollar m b a v = v := by
  induction v with
  | nil => rfl
  | cons c rest ih =>
    simp only [List.mem_cons, not_or] at hv
    have hc : c ≠ '$' := fun h => hv.1 h.symm
    rw [expandDollar.eq_def]
    simp [hc, ih hv.2]

theorem objLookup_objInsert_self (o : List (JStr × JVal)) (k : JStr) (v : JVal) :
    objLookup k (objInsert o k v) = some v := by
  induction o with
  | nil => simp [objInsert, objLookup]
  | cons p rest ih =>
    obtain ⟨k2, v2⟩ := p
    by_cases h : k2 = k
    · simp [objInsert, h, objLookup]
    · simp [objInsert, h, objLookup, ih]

theorem objLookup_objInsert_ne (o : List (JStr × JVal)) (k k2 : JStr) (v : JVal)
    (h : k2 ≠ k) : objLookup k (objInsert o k2 v) = objLookup k o := by
  induction o with
  | nil => simp [objInsert, objLookup, h]
  | cons p rest ih =>
    obtain ⟨k3, v3⟩ := p
    by_cases h2 : k3 = k2
    · subst h2
      simp [objInsert, objLookup, h]
    · simp [objInsert, h2, objLookup, ih]

theorem objLookup_eq_none_iff (k : JStr) (ps : List (JStr × JVal)) :
    objLookup k ps = none ↔ ∀ p ∈ ps, p.1 ≠ k := by
  induction ps with
  | nil => simp [objLookup]
  | cons p rest ih =>
    obtain ⟨k2, v2⟩ := p
    by_cases h : k2 = k
    · simp [objLookup, h]
    · simp [objLookup, h, ih]

theorem objLookup_foldl_objInsert (ps : List (JStr × JVal)) (k : JStr)
    (h : ∀ p ∈ ps, p.1 ≠ k) :
    ∀ o, objLookup k (ps.foldl (fun o p => objInsert o p.1 p.2) o) = objLookup k o := by
  induction ps with
  | nil => intro o; rfl
  | cons p rest ih =>
    intro o
    simp only [List.foldl_cons]
    rw [ih (fun q hq => h q (List.mem_cons_of_mem _ hq)) _,
      objLookup_objInsert_ne _ _ _ _ (h p (List.mem_cons_self _ _))]

theorem jsReplaceFirst_of_not_found (s p v : JStr) (h : firstOccurIdx p s = none) :
    jsReplaceFirst s p v = s := by
  unfold jsReplaceFirst
  rw [h]

theorem jsReplaceFirst_splice (A B p v : JStr)
    (hp : firstOccurIdx p (A ++ (p ++ B)) = some A.length) (hv : '$' ∉ v) :
    jsReplaceFirst (A ++ (p ++ B)) p v = A ++ (v ++ B) := by
  unfold jsReplaceFirst
  rw [hp]
  have h1 : (A ++ (p ++ B)).take A.length = A := List.take_left _ _
  have h2 : (A ++ (p ++ B)).drop (A.length + p.length) = B := by
    rw [← List.append_assoc, ← List.length_append]
    exact List.drop_left _ _
  simp only [h1, h2, expandDollar_id_of_no_dollar _ _ _ v hv, List.append_assoc]

theorem isPrefixOf_append_right (A t u : JStr) (h : A.isPrefixOf t = true) :
    A.isPrefixOf (t ++ u) = true := by
  rw [List.isPrefixOf_iff_prefix] at h ⊢
  exact h.trans (t.prefix_append u)

theorem isSuffixOf_append_self (u t : JStr) : u.isSuffixOf (t ++ u) = true := by
  rw [List.isSuffixOf_iff_suffix]
  exact List.suffix_append t u

/-! Helper lemmas about the two line-processing loops. -/

theorem mainProcessLine_skip (rt : JStr) (st : JStr × List JStr) (m : JStr)
    (h1 : (js "data: ").isPrefixOf m = true)
    (h2 : jsonParse (jsTrim (m.drop 6)) = none) :
    mainProcessLine rt st m = st := by
  by_cases hd : jsTrim (m.drop 6) = js "[DONE]"
  · simp [mainProcessLine, h1, hd]
  · simp [mainProcessLine, h1, hd, h2]

theorem foldl_mainProcessLine_erase (rt : JStr) (m : JStr)
    (h : ∀ st, mainProcessLine rt st m = st) (pre post : List JStr)
    (st : JStr × List JStr) :
    (pre ++ m :: post).foldl (mainProcessLine rt) st
      = (pre ++ post).foldl (mainProcessLine rt) st := by
  rw [List.foldl_append, List.foldl_append, List.foldl_cons, h]

theorem p0LineStep_skip_of_parse_fail (rt : JStr) (hs : Bool) (st : JStr × List JStr)
    (m : JStr)
    (h1 : (js "data:").isPrefixOf (jsTrim m) = true)
    (h2 : jsTrim ((jsTrim m).drop 5) ≠ js "[DONE]")
    (h3 : jsonParse (jsTrim ((jsTrim m).drop 5)) = none) :
    p0LineStep rt hs st m = some st := by
  have hne : (jsTrim m).isEmpty = false := by
    cases hm : jsTrim m with
    | nil => rw [hm] at h1; exact absurd h1 (by decide)
    | cons c r => rfl
  simp [p0LineStep, hne, h1, h2, h3]

theorem p0ProcessLines_skip (rt : JStr) (hs : Bool) (m : JStr)
    (hm : ∀ st, p0LineStep rt hs st m = some st) :
    ∀ (pre post : List JStr) (st : JStr × List JStr),
      p0ProcessLines rt hs (pre ++ m :: post) st = p0ProcessLines rt hs (pre ++ post) st := by
  intro pre
  induction pre with
  | nil =>
    intro post st
    simp [p0ProcessLines, hm st]
  | cons l rest ih =>
    intro post st
    simp only [List.cons_append, p0ProcessLines]
    cases h : p0LineStep rt hs st l with
    | none => rfl
    | some st2 => exact ih post st2

theorem p0ProcessLines_break (rt : JStr) (hs : Bool) (m : JStr)
    (hm : ∀ st, p0LineStep rt hs st m = none) :
    ∀ (pre post : List JStr) (st : JStr × List JStr),
      p0ProcessLines rt hs (pre ++ m :: post) st = p0ProcessLines rt hs pre st := by
  intro pre
  induction pre with
  | nil =>
    intro post st
    simp [p0ProcessLines, hm st]
  | cons l rest ih =>
    intro post st
    simp only [List.cons_append, p0ProcessLines]
    cases h : p0LineStep rt hs st l with
    | none => rfl
    | some st2 => exact ih post st2

/-! Helper lemmas about endpoint normalisation. -/

theorem ensureScheme_hasScheme (s : JStr) :
    (js "http://").isPrefixOf (ensureScheme s) = true
      ∨ (js "https://").isPrefixOf (ensureScheme s) = true := by
  unfold ensureScheme
  by_cases h1 : (js "http://").isPrefixOf s
  · simp [h1]
  · by_cases h2 : (js "https://").isPrefixOf s
    · simp [h1, h2]
    · simp only [h1, h2]
      simp only [Bool.not_false, Bool.and_self, if_pos]
      exact Or.inr (isPrefixOf_append_right _ _ s (by decide))

theorem p0NormalizePath_eq_append (s : JStr) :
    ∃ u, p0NormalizePath s = ensureScheme s ++ u := by
  unfold p0NormalizePath
  by_cases h1 : (js "/chat/completions").isSuffixOf (ensureScheme s)
  · exact ⟨[], by simp [h1]⟩
  · by_cases h2 : (js "/").isSuffixOf (ensureScheme s)
    · exact ⟨js "chat/completions", by simp [h1, h2]⟩
    · exact ⟨js "/chat/completions", by simp [h1, h2]⟩

theorem p0NormalizePath_hasScheme (s : JStr) :
    (js "http://").isPrefixOf (p0NormalizePath s) = true
      ∨ (js "https://").isPrefixOf (p0NormalizePath s) = true := by
  obtain ⟨u, hu⟩ := p0NormalizePath_eq_append s
  rw [hu]
  rcases ensureScheme_hasScheme s with h | h
  · exact Or.inl (isPrefixOf_append_right _ _ _ h)
  · exact Or.inr (isPrefixOf_append_right _ _ _ h)

theorem p0NormalizePath_hasSuffix (s : JStr) :
    (js "/chat/completions").isSuffixOf (p0NormalizePath s) = true := by
  unfold p0NormalizePath
  by_cases h1 : (js "/chat/completions").isSuffixOf (ensureScheme s)
  · simp [h1]
  · by_cases h2 : (js "/").isSuffixOf (ensureScheme s)
    · simp only [h1, h2, if_neg, if_pos, Bool.false_eq_true, ite_false, ite_true]
      rw [List.isSuffixOf_iff_suffix] at h2 ⊢
      obtain ⟨t0, ht⟩ := h2
      rw [← ht, List.append_assoc]
      exact ⟨t0, rfl⟩
    · simp only [h1, h2, Bool.false_eq_true, ite_false]
      exact isSuffixOf_append_self _ _

theorem mainNormalizePath_hasSuffix (p : JStr) :
    (js "/chat/completions").isSuffixOf (mainNormalizePath p) = true := by
  unfold mainNormalizePath
  by_cases h1 : (js "/chat/completions").isSuffixOf p
  · simp [h1]
  · by_cases h2 : (js "/").isSuffixOf p
    · simp only [h1, h2, Bool.false_eq_true, ite_false, Bool.not_true, ite_true,
        Bool.false_eq_true, if_neg]
      rw [List.isSuffixOf_iff_suffix] at h2 ⊢
      obtain ⟨t0, ht⟩ := h2
      rw [← ht, List.append_assoc]
      exact ⟨t0, rfl⟩
    · simp only [h1, h2, Bool.false_eq_true, ite_false, Bool.not_false, ite_true]
      rw [List.isSuffixOf_iff_suffix, List.append_assoc]
      exact ⟨p, rfl⟩

/-! Claim theorems. -/

/-- C2: on the input of the claim with the default tag configuration, the p0
tag stripper removes the paired form and the self-closing form and yields
exactly "Hello", but the src/main.js tag stripper returns the input
unchanged, because the regex it builds (doubling the closing bracket) can
never match either form. -/
theorem c2_tag_stripper_eval :
    applyTagRemoval (js "<think>,<help>") (js "<think>ignore</think>Hello<help/>")
        = js "Hello"
    ∧ applyRemoveTag (js "<think>,<help>") (js "<think>ignore</think>Hello<help/>")
        = js "<think>ignore</think>Hello<help/>"
    ∧ js "<think>ignore</think>Hello<help/>" ≠ js "Hello" :=
  ⟨by rfl, by rfl, by decide⟩

/-- C9: a 2xx body of shape choices[0].message.content = "" is rejected with
the invalid-response-structure error by the truthiness test in both variants,
and a streaming delta whose content is the empty string leaves the decoder
state unchanged in both variants. -/
theorem c9_empty_content_rejected :
    extractMain (js "<think>,<help>")
        (JVal.obj [(js "choices", JVal.arr [JVal.obj [(js "message",
          JVal.obj [(js "content", JVal.str [])])]])])
      = .error (js "API Error: Invalid response structure received.\n"
          ++ jsonStringify (JVal.obj [(js "choices", JVal.arr [JVal.obj [(js "message",
            JVal.obj [(js "content", JVal.str [])])]])]))
    ∧ p0Extract (js "<think>,<help>")
        (JVal.obj [(js "choices", JVal.arr [JVal.obj [(js "message",
          JVal.obj [(js "content", JVal.str [])])]])])
      = .error (js "API Error: Invalid non-streaming response structure.\n"
          ++ jsonStringify (JVal.obj [(js "choices", JVal.arr [JVal.obj [(js "message",
            JVal.obj [(js "content", JVal.str [])])]])]))
    ∧ (∀ st : JStr × List JStr, mainProcessLine (js "<think>,<help>") st
        (js "data: \x7b\"choices\":[\x7b\"delta\":\x7b\"content\":\"\"\x7d\x7d]\x7d") = st)
    ∧ (∀ (hs : Bool) (st : JStr × List JStr), p0LineStep (js "<think>,<help>") hs st
        (js "data: \x7b\"choices\":[\x7b\"delta\":\x7b\"content\":\"\"\x7d\x7d]\x7d") = some st) :=
  ⟨by rfl, by rfl, fun st => by rfl, fun hs st => by rfl⟩

/-- C10: the source text is not preserved verbatim: for the text
"price $to high" under a template whose own `$to` comes after `$text`, the
rendered user prompt replaces the occurrence of `$to` inside the user text by
the mapped language name, so the original text no longer occurs in the
prompt. -/
theorem c10_text_not_verbatim :
    ((js "$to") <:+: (js "price $to high"))
    ∧ renderUserMain (js "$text translate to $to") (js "price $to high")
        (langName [(js "zh", js "Chinese")] (js "zh"))
        (langName [(js "zh", js "Chinese")] (js "en")) (js "en")
      = js "price Chinese high translate to $to"
    ∧ ¬ ((js "price $to high") <:+: (js "price Chinese high translate to $to")) :=
  ⟨by decide, by rfl, by decide⟩

/-- C3 (counterexample): in the src/main.js decoder a delta line arriving
after the `[DONE]` terminator is still appended: on a stream whose only delta
follows the terminator the returned result is "X", not the empty string the
claim demands. -/
theorem c3_cex_content_after_done_kept :
    (mainStreamRun (js "<think>,<help>")
        [js "data: [DONE]\ndata: \x7b\"choices\":[\x7b\"delta\":\x7b\"content\":\"X\"\x7d\x7d]\x7d\n"]).1
      = js "X"
    ∧ js "X" ≠ ([] : JStr) :=
  ⟨by rfl, by decide⟩

/-- C3 (amended): in the p0 decoder every line after the first `[DONE]`
terminator is discarded, while in the src/main.js decoder the terminator line
itself never contributes content but delta lines after it are still
processed. -/
theorem c3_amended_terminator_behaviour :
    (∀ (hs : Bool) (rt : JStr) (pre post : List JStr) (st : JStr × List JStr),
      p0ProcessLines rt hs (pre ++ (js "data: [DONE]") :: post) st
        = p0ProcessLines rt hs pre st)
    ∧ (∀ (rt : JStr) (pre post : List JStr) (st : JStr × List JStr),
      (pre ++ (js "data: [DONE]") :: post).foldl (mainProcessLine rt) st
        = (pre ++ post).foldl (mainProcessLine rt) st) := by
  constructor
  · intro hs rt pre post st
    exact p0ProcessLines_break rt hs (js "data: [DONE]") (fun st2 => rfl) pre post st
  · intro rt pre post st
    exact foldl_mainProcessLine_erase rt (js "data: [DONE]") (fun st2 => rfl) pre post st

/-- C8: endpoint normalisation is idempotent.  A request path that already
carries an http or https scheme and ends in /chat/completions is a fixed
point of the p0 whole-string normalisation; normalising twice equals
normalising once for both the p0 normalisation and the pathname-suffixing
step of src/main.js. -/
theorem c8_normalize_idempotent :
    (∀ s : JStr,
      ((js "http://").isPrefixOf s = true ∨ (js "https://").isPrefixOf s = true) →
      (js "/chat/completions").isSuffixOf s = true → p0NormalizePath s = s)
    ∧ (∀ s : JStr, p0NormalizePath (p0NormalizePath s) = p0NormalizePath s)
    ∧ (∀ p : JStr, (js "/chat/completions").isSuffixOf p = true → mainNormalizePath p = p)
    ∧ (∀ p : JStr, mainNormalizePath (mainNormalizePath p) = mainNormalizePath p) := by
  have hfix : ∀ s : JStr,
      ((js "http://").isPrefixOf s = true ∨ (js "https://").isPrefixOf s = true) →
      (js "/chat/completions").isSuffixOf s = true → p0NormalizePath s = s := by
    intro s h1 h2
    have hs : ensureScheme s = s := by
      unfold ensureScheme
      rcases h1 with h | h <;> simp [h]
    unfold p0NormalizePath
    rw [hs]
    simp [h2]
  have hmainfix : ∀ p : JStr,
      (js "/chat/completions").isSuffixOf p = true → mainNormalizePath p = p := by
    intro p h
    simp [mainNormalizePath, h]
  refine ⟨hfix, fun s => ?_, hmainfix, fun p => ?_⟩
  · exact hfix _ (p0NormalizePath_hasScheme s) (p0NormalizePath_hasSuffix s)
  · exact hmainfix _ (mainNormalizePath_hasSuffix p)

/-- C8 witness: concrete already-normalised endpoints are fixed points. -/
theorem c8_witness :
    p0NormalizePath (js "https://api.example.com/v1/chat/completions")
      = js "https://api.example.com/v1/chat/completions"
    ∧ mainNormalizePath (js "/v1/chat/completions") = js "/v1/chat/completions" :=
  ⟨c8_normalize_idempotent.1 _ (Or.inr (by decide)) (by decide),
   c8_normalize_idempotent.2.2.1 _ (by decide)⟩

/-- C6: a data line whose payload is not parseable JSON is skipped without
terminating stream processing: removing such a line from anywhere in the
stream does not change the decoding outcome, so every later well-formed delta
still contributes, in both variants. -/
theorem c6_malformed_line_skipped (rt : JStr) (m : JStr) (pre post : List JStr) :
    ((js "data: ").isPrefixOf m = true → jsonParse (jsTrim (m.drop 6)) = none →
      ∀ st : JStr × List JStr,
        (pre ++ m :: post).foldl (mainProcessLine rt) st
          = (pre ++ post).foldl (mainProcessLine rt) st)
    ∧ (∀ hs : Bool, (js "data:").isPrefixOf (jsTrim m) = true →
        jsTrim ((jsTrim m).drop 5) ≠ js "[DONE]" →
        jsonParse (jsTrim ((jsTrim m).drop 5)) = none →
        ∀ st : JStr × List JStr,
          p0ProcessLines rt hs (pre ++ m :: post) st
            = p0ProcessLines rt hs (pre ++ post) st) := by
  constructor
  · intro h1 h2 st
    exact foldl_mainProcessLine_erase rt m
      (fun st2 => mainProcessLine_skip rt st2 m h1 h2) pre post st
  · intro hs h1 h2 h3 st
    exact p0ProcessLines_skip rt hs m
      (fun st2 => p0LineStep_skip_of_parse_fail rt hs st2 m h1 h2 h3) pre post st

/-- C6 witness: a concrete malformed line between two well-formed delta lines
changes nothing in either decoder. -/
theorem c6_witness :
    ([js "data: \x7b\"choices\":[\x7b\"delta\":\x7b\"content\":\"A\"\x7d\x7d]\x7d"]
        ++ (js "data: \x7boops")
        :: [js "data: \x7b\"choices\":[\x7b\"delta\":\x7b\"content\":\"B\"\x7d\x7d]\x7d"]).foldl
        (mainProcessLine (js "<think>,<help>")) ([], [])
      = ([js "data: \x7b\"choices\":[\x7b\"delta\":\x7b\"content\":\"A\"\x7d\x7d]\x7d"]
          ++ [js "data: \x7b\"choices\":[\x7b\"delta\":\x7b\"content\":\"B\"\x7d\x7d]\x7d"]).foldl
          (mainProcessLine (js "<think>,<help>")) ([], [])
    ∧ p0ProcessLines (js "<think>,<help>") true
        ([js "data: \x7b\"choices\":[\x7b\"delta\":\x7b\"content\":\"A\"\x7d\x7d]\x7d"]
          ++ (js "data: \x7boops")
          :: [js "data: \x7b\"choices\":[\x7b\"delta\":\x7b\"content\":\"B\"\x7d\x7d]\x7d"]) ([], [])
      = p0ProcessLines (js "<think>,<help>") true
          ([js "data: \x7b\"choices\":[\x7b\"delta\":\x7b\"content\":\"A\"\x7d\x7d]\x7d"]
            ++ [js "data: \x7b\"choices\":[\x7b\"delta\":\x7b\"content\":\"B\"\x7d\x7d]\x7d"]) ([], []) :=
  have h := c6_malformed_line_skipped (js "<think>,<help>") (js "data: \x7boops")
    [js "data: \x7b\"choices\":[\x7b\"delta\":\x7b\"content\":\"A\"\x7d\x7d]\x7d"]
    [js "data: \x7b\"choices\":[\x7b\"delta\":\x7b\"content\":\"B\"\x7d\x7d]\x7d"]
  ⟨h.1 (by decide) (by rfl) ([], []), h.2 true (by decide) (by decide) (by rfl) ([], [])⟩

/-- C4: on the three chunks of the claim, the src/main.js translate call in
stream mode returns "Hello", the callback trace is exactly the two
ellipsis-marked intermediate pushes followed by a final push of exactly
"Hello" (no ellipsis), and the p0 variant on the same chunk text returns
"Hello" with a final callback argument of exactly "Hello". -/
theorem c4_stream_decodes_hello :
    (let out := translateMain (js "hi") (js "en") (js "zh") (js "en")
        ⟨some (js "k"), some (js "https://api.example.com/v1"), none, none, none, none,
          none, some (js "true"), []⟩ true
        ⟨fun _ => some ⟨js "https://api.example.com", js "/v1"⟩,
         fun _ _ => Except.ok ⟨true, js "200", [],
           some [js "data: \x7b\"choices\":[\x7b\"delta\":\x7b\"content\":\"Hel\"\x7d\x7d]\x7d\n",
             js "data: \x7b\"choices\":[\x7b\"delta\":\x7b\"content\":\"lo\"\x7d\x7d]\x7d\n",
             js "data: [DONE]\n"]⟩,
         fun _ _ => Except.error []⟩;
      out.res = Except.ok (js "Hello")
        ∧ out.calls = [js "Hel...", js "Hello...", js "Hello"]
        ∧ out.calls.getLast? = some (js "Hello"))
    ∧ (let out2 := p0Translate (js "hi") (js "en") (js "zh")
        ⟨some (js "k"), some (js "https://api.example.com/v1"), none, none, none, none,
          none, some (js "true"), []⟩ true true
        (fun _ _ => Except.ok ⟨true, js "200", JVal.str
          (js "data: \x7b\"choices\":[\x7b\"delta\":\x7b\"content\":\"Hel\"\x7d\x7d]\x7d\ndata: \x7b\"choices\":[\x7b\"delta\":\x7b\"content\":\"lo\"\x7d\x7d]\x7d\ndata: [DONE]\n")⟩);
      out2.res = Except.ok (js "Hello")
        ∧ out2.calls = [js "Hel", js "Hello", js "Hello"]
        ∧ out2.calls.getLast? = some (js "Hello")) :=
  ⟨⟨by rfl, by rfl, by rfl⟩, ⟨by rfl, by rfl, by rfl⟩⟩

/-- C1 (amended): in the src/main.js body the `stream` key is assigned after
the parameter spread and therefore always takes precedence, while `model` and
`messages` keep the caller values only when the parsed parameters object has
no key of that name; in the p0 body the spread comes last, so all three keys
keep the caller values only when absent from the parameters.  The messages
value itself is always the two-element list with the system message first. -/
theorem c1_amended_body_precedence :
    ∀ (model systemPrompt userPrompt : JStr) (params : JVal) (stream : Bool),
      (objLookup (js "stream")
          (mainRequestBody model (chatMessages systemPrompt userPrompt) params stream)
        = some (JVal.bool stream))
      ∧ (objLookup (js "model") (spreadFields params) = none →
          objLookup (js "model")
              (mainRequestBody model (chatMessages systemPrompt userPrompt) params stream)
            = some (JVal.str model))
      ∧ (objLookup (js "messages") (spreadFields params) = none →
          objLookup (js "messages")
              (mainRequestBody model (chatMessages systemPrompt userPrompt) params stream)
            = some (chatMessages systemPrompt userPrompt))
      ∧ (objLookup (js "model") (spreadFields params) = none →
          objLookup (js "messages") (spreadFields params) = none →
          objLookup (js "stream") (spreadFields params) = none →
          objLookup (js "model")
              (p0RequestBody model (chatMessages systemPrompt userPrompt) params stream)
            = some (JVal.str model)
          ∧ objLookup (js "messages")
              (p0RequestBody model (chatMessages systemPrompt userPrompt) params stream)
            = some (chatMessages systemPrompt userPrompt)
          ∧ objLookup (js "stream")
              (p0RequestBody model (chatMessages systemPrompt userPrompt) params stream)
            = some (JVal.bool stream))
      ∧ jLength (chatMessages systemPrompt userPrompt) = some 2
      ∧ jIdx (chatMessages systemPrompt userPrompt) 0
          = some (JVal.obj [(js "role", JVal.str (js "system")),
              (js "content", JVal.str systemPrompt)])
      ∧ jIdx (chatMessages systemPrompt userPrompt) 1
          = some (JVal.obj [(js "role", JVal.str (js "user")),
              (js "content", JVal.str userPrompt)]) := by
  intro model systemPrompt userPrompt params stream
  unfold mainRequestBody p0RequestBody
  refine ⟨?_, ?_, ?_, ?_, by rfl, by rfl, by rfl⟩
  · exact objLookup_objInsert_self _ _ _
  · intro h
    rw [objLookup_objInsert_ne _ _ _ _ (by decide),
      objLookup_foldl_objInsert _ _ ((objLookup_eq_none_iff _ _).1 h) _]
    rfl
  · intro h
    rw [objLookup_objInsert_ne _ _ _ _ (by decide),
      objLookup_foldl_objInsert _ _ ((objLookup_eq_none_iff _ _).1 h) _]
    rfl
  · intro h1 h2 h3
    refine ⟨?_, ?_, ?_⟩
    · rw [objLookup_foldl_objInsert _ _ ((objLookup_eq_none_iff _ _).1 h1) _]; rfl
    · rw [objLookup_foldl_objInsert _ _ ((objLookup_eq_none_iff _ _).1 h2) _]; rfl
    · rw [objLookup_foldl_objInsert _ _ ((objLookup_eq_none_iff _ _).1 h3) _]; rfl

/-- C1 witness: with the default parameters object, both bodies keep the
caller model, the two-element messages list and the stream flag. -/
theorem c1_witness :
    objLookup (js "stream") (mainRequestBody (js "gpt-4o-mini")
        (chatMessages (js "s") (js "u"))
        (JVal.obj [(js "temperature", JVal.num (js "0.1"))]) true)
      = some (JVal.bool true)
    ∧ objLookup (js "model") (mainRequestBody (js "gpt-4o-mini")
        (chatMessages (js "s") (js "u"))
        (JVal.obj [(js "temperature", JVal.num (js "0.1"))]) true)
      = some (JVal.str (js "gpt-4o-mini"))
    ∧ objLookup (js "messages") (mainRequestBody (js "gpt-4o-mini")
        (chatMessages (js "s") (js "u"))
        (JVal.obj [(js "temperature", JVal.num (js "0.1"))]) true)
      = some (chatMessages (js "s") (js "u"))
    ∧ objLookup (js "stream") (p0RequestBody (js "gpt-4o-mini")
        (chatMessages (js "s") (js "u"))
        (JVal.obj [(js "temperature", JVal.num (js "0.1"))]) true)
      = some (JVal.bool true) :=
  have h := c1_amended_body_precedence (js "gpt-4o-mini") (js "s") (js "u")
    (JVal.obj [(js "temperature", JVal.num (js "0.1"))]) true
  ⟨h.1, h.2.1 (by rfl), h.2.2.1 (by rfl), (h.2.2.2.1 (by rfl) (by rfl) (by rfl)).2.2⟩

/-- C1 (counterexample): a parameters JSON with a "model" key replaces the
caller model in the src/main.js body (the spread comes after the model key),
and a "stream" key replaces the stream flag in the p0 body (the spread comes
last there), so the fixed keys do not take precedence as the claim states. -/
theorem c1_cex_params_override :
    mainResolveParams (js "\x7b\"model\":\"evil\"\x7d")
      = JVal.obj [(js "model", JVal.str (js "evil"))]
    ∧ objLookup (js "model")
        (mainRequestBody (js "gpt-4o-mini") (chatMessages (js "s") (js "u"))
          (mainResolveParams (js "\x7b\"model\":\"evil\"\x7d")) true)
      = some (JVal.str (js "evil"))
    ∧ js "evil" ≠ js "gpt-4o-mini"
    ∧ objLookup (js "stream")
        (p0RequestBody (js "gpt-3.5-turbo") (chatMessages (js "s") (js "u"))
          (JVal.obj [(js "stream", JVal.bool false)]) true)
      = some (JVal.bool false) :=
  ⟨by rfl, by rfl, by decide, by rfl⟩

/-- C7: whenever apiKey is missing or empty, or requestPath is missing or
empty, both translate variants fail with the corresponding configuration
error and the fetch-call trace stays empty, whatever the platform oracle may
do. -/
theorem c7_missing_config_no_fetch (cfg : PluginConfig) (text fromL toL det : JStr)
    (hs : Bool) (oracle : MainOracle)
    (p0oracle : JStr → List (JStr × JVal) → Except JStr P0Resp)
    (h : optTruthy cfg.apiKey = false ∨ optTruthy cfg.requestPath = false) :
    ((translateMain text fromL toL det cfg hs oracle).fetches = []
      ∧ ((translateMain text fromL toL det cfg hs oracle).res
            = .error (js "API Key is missing. Please configure it in the plugin settings.")
          ∨ (translateMain text fromL toL det cfg hs oracle).res
            = .error (js "Request Path (API Endpoint URL) is missing. Please configure it.")))
    ∧ ((p0Translate text fromL toL cfg hs true p0oracle).fetches = []
      ∧ ((p0Translate text fromL toL cfg hs true p0oracle).res
            = .error (js "API Key is missing. Please configure it in the plugin settings.")
          ∨ (p0Translate text fromL toL cfg hs true p0oracle).res
            = .error (js "Request Path (API Endpoint URL) is missing. Please configure it."))) := by
  cases hk : optTruthy cfg.apiKey with
  | false =>
    refine ⟨⟨by simp [translateMain, hk], Or.inl (by simp [translateMain, hk])⟩,
      ⟨by simp [p0Translate, hk], Or.inl (by simp [p0Translate, hk])⟩⟩
  | true =>
    have hp : optTruthy cfg.requestPath = false := by
      rcases h with h2 | h2
      · rw [h2] at hk; cases hk
      · exact h2
    refine ⟨⟨by simp [translateMain, hk, hp], Or.inr (by simp [translateMain, hk, hp])⟩,
      ⟨by simp [p0Translate, hk, hp], Or.inr (by simp [p0Translate, hk, hp])⟩⟩

/-- C7 witness: a concrete configuration with no apiKey fails with the
configuration error and no fetch in both variants, for one concrete oracle. -/
theorem c7_witness :
    ((translateMain (js "t") (js "en") (js "zh") (js "en")
        ⟨none, some (js "x"), none, none, none, none, none, none, []⟩ true
        ⟨fun _ => none, fun _ _ => Except.error [], fun _ _ => Except.error []⟩).fetches = []
      ∧ ((translateMain (js "t") (js "en") (js "zh") (js "en")
            ⟨none, some (js "x"), none, none, none, none, none, none, []⟩ true
            ⟨fun _ => none, fun _ _ => Except.error [], fun _ _ => Except.error []⟩).res
            = .error (js "API Key is missing. Please configure it in the plugin settings.")
          ∨ (translateMain (js "t") (js "en") (js "zh") (js "en")
            ⟨none, some (js "x"), none, none, none, none, none, none, []⟩ true
            ⟨fun _ => none, fun _ _ => Except.error [], fun _ _ => Except.error []⟩).res
            = .error (js "Request Path (API Endpoint URL) is missing. Please configure it.")))
    ∧ ((p0Translate (js "t") (js "en") (js "zh")
        ⟨none, some (js "x"), none, none, none, none, none, none, []⟩ true true
        (fun _ _ => Except.error [])).fetches = []
      ∧ ((p0Translate (js "t") (js "en") (js "zh")
            ⟨none, some (js "x"), none, none, none, none, none, none, []⟩ true true
            (fun _ _ => Except.error [])).res
            = .error (js "API Key is missing. Please configure it in the plugin settings.")
          ∨ (p0Translate (js "t") (js "en") (js "zh")
            ⟨none, some (js "x"), none, none, none, none, none, none, []⟩ true true
            (fun _ _ => Except.error [])).res
            = .error (js "Request Path (API Endpoint URL) is missing. Please configure it."))) :=
  c7_missing_config_no_fetch
    ⟨none, some (js "x"), none, none, none, none, none, none, []⟩
    (js "t") (js "en") (js "zh") (js "en") true
    ⟨fun _ => none, fun _ _ => Except.error [], fun _ _ => Except.error []⟩
    (fun _ _ => Except.error []) (Or.inl (by rfl))

/-- C5 (counterexample): with the user template "$to and $to" only the first
occurrence of `$to` is substituted by the mapped name, so the rendered prompt
still contains the placeholder, while substituting every occurrence as the
claim states would yield a different string. -/
theorem c5_cex_second_occurrence_kept :
    renderUserMain (js "$to and $to") (js "x")
        (langName [(js "zh", js "Chinese")] (js "zh"))
        (langName [(js "zh", js "Chinese")] (js "en")) (js "auto")
      = js "Chinese and $to"
    ∧ specRenderUserEvery (js "$to and $to") (js "x")
        (langName [(js "zh", js "Chinese")] (js "zh"))
        (langName [(js "zh", js "Chinese")] (js "en")) (js "auto")
      = js "Chinese and Chinese"
    ∧ js "Chinese and $to" ≠ js "Chinese and Chinese" :=
  ⟨by rfl, by rfl, by decide⟩

/-- C5 (amended): prompt rendering substitutes the first occurrence of each
placeholder sequentially (in the src/main.js user template: $text, then $to,
then $from, then $detect; in its system template: $to, $from, $detect), using
the display name from the language map through `langName`; when every
placeholder occurs exactly once at the indicated position and the substituted
values contain no dollar character, each placeholder is replaced by its value
and all surrounding template text is preserved. -/
theorem c5_amended_first_occurrence_substitution
    (map : List (JStr × JStr)) (toC fromC detC : JStr)
    (a b c d e f g text : JStr) (toN fromN detN : JStr)
    (_hto : toN = langName map toC) (_hfrom : fromN = langName map fromC)
    (_hdet : detN = langName map detC)
    (htext : '$' ∉ text) (htoN : '$' ∉ toN) (hfromN : '$' ∉ fromN)
    (h1 : firstOccurIdx (js "$text")
        (a ++ (js "$text" ++ (b ++ (js "$to" ++ (c ++ (js "$from" ++ d))))))
      = some a.length)
    (h2 : firstOccurIdx (js "$to")
        ((a ++ (text ++ b)) ++ (js "$to" ++ (c ++ (js "$from" ++ d))))
      = some (a ++ (text ++ b)).length)
    (h3 : firstOccurIdx (js "$from")
        (((a ++ (text ++ b)) ++ (toN ++ c)) ++ (js "$from" ++ d))
      = some ((a ++ (text ++ b)) ++ (toN ++ c)).length)
    (h4 : firstOccurIdx (js "$detect")
        (((a ++ (text ++ b)) ++ (toN ++ c)) ++ (fromN ++ d)) = none)
    (h5 : firstOccurIdx (js "$to") (e ++ (js "$to" ++ (f ++ (js "$from" ++ g))))
      = some e.length)
    (h6 : firstOccurIdx (js "$from") ((e ++ (toN ++ f)) ++ (js "$from" ++ g))
      = some (e ++ (toN ++ f)).length)
    (h7 : firstOccurIdx (js "$detect") ((e ++ (toN ++ f)) ++ (fromN ++ g)) = none) :
    renderUserMain (a ++ (js "$text" ++ (b ++ (js "$to" ++ (c ++ (js "$from" ++ d))))))
        text toN fromN detN
      = a ++ (text ++ (b ++ (toN ++ (c ++ (fromN ++ d)))))
    ∧ renderSystemMain (e ++ (js "$to" ++ (f ++ (js "$from" ++ g)))) toN fromN detN
      = e ++ (toN ++ (f ++ (fromN ++ g))) := by
  constructor
  · unfold renderUserMain
    have s1 := jsReplaceFirst_splice a (b ++ (js "$to" ++ (c ++ (js "$from" ++ d))))
      (js "$text") text h1 htext
    have e1 : a ++ (text ++ (b ++ (js "$to" ++ (c ++ (js "$from" ++ d)))))
        = (a ++ (text ++ b)) ++ (js "$to" ++ (c ++ (js "$from" ++ d))) := by
      simp [List.append_assoc]
    have s2 := jsReplaceFirst_splice (a ++ (text ++ b)) (c ++ (js "$from" ++ d))
      (js "$to") toN h2 htoN
    have e2 : (a ++ (text ++ b)) ++ (toN ++ (c ++ (js "$from" ++ d)))
        = ((a ++ (text ++ b)) ++ (toN ++ c)) ++ (js "$from" ++ d) := by
      simp [List.append_assoc]
    have s3 := jsReplaceFirst_splice ((a ++ (text ++ b)) ++ (toN ++ c)) d
      (js "$from") fromN h3 hfromN
    have s4 := jsReplaceFirst_of_not_found
      ((((a ++ (text ++ b)) ++ (toN ++ c))) ++ (fromN ++ d)) (js "$detect") detN h4
    rw [s1, e1, s2, e2, s3, s4]
    simp [List.append_assoc]
  · unfold renderSystemMain
    have s5 := jsReplaceFirst_splice e (f ++ (js "$from" ++ g)) (js "$to") toN h5 htoN
    have e5 : e ++ (toN ++ (f ++ (js "$from" ++ g)))
        = (e ++ (toN ++ f)) ++ (js "$from" ++ g) := by
      simp [List.append_assoc]
    have s6 := jsReplaceFirst_splice (e ++ (toN ++ f)) g (js "$from") fromN h6 hfromN
    have s7 := jsReplaceFirst_of_not_found ((e ++ (toN ++ f)) ++ (fromN ++ g))
      (js "$detect") detN h7
    rw [s5, e5, s6, s7]
    simp [List.append_assoc]

/-- C5 witness: a concrete template with one occurrence of each placeholder
is fully substituted, with the mapped name used for the mapped code and the
raw code used otherwise. -/
theorem c5_witness :
    renderUserMain (js "T: $text to $to from $from.") (js "hi") (js "Chinese")
        (js "en") (js "auto")
      = js "T: hi to Chinese from en."
    ∧ renderSystemMain (js "S $to m $from e") (js "Chinese") (js "en") (js "auto")
      = js "S Chinese m en e" :=
  have h := c5_amended_first_occurrence_substitution
    [(js "zh", js "Chinese")] (js "zh") (js "en") (js "auto")
    (js "T: ") (js " to ") (js " from ") (js ".") (js "S ") (js " m ") (js " e")
    (js "hi") (js "Chinese") (js "en") (js "auto")
    (by rfl) (by rfl) (by rfl)
    (by decide) (by decide) (by decide)
    (by decide) (by decide) (by decide) (by decide) (by decide) (by decide) (by decide)
  ⟨h.1, h.2⟩
